import Mathlib

/-!
Shallow embedding of `internal/mtail/mtail.go` from the mtail repository.

The Go code is stateful and concurrent; we model the `Server` struct as a
record of the fields the claims depend on, external calls (tailer, loader,
HTTP server, filesystem) as an `Env` record of their results, and each method
as a pure function from server state and environment to a new state, an
ordered trace of observable events, and the Go return value (`error` becomes
`Option String`, `nil` becomes `none`).

Channel fields of the Go struct are modelled by a Boolean recording whether
the channel has been closed; `sync.Once` by a Boolean recording whether the
once-guard has fired; nil-able pointer fields (`m.t`, `m.l`, `m.h`) by a
Boolean recording non-nil-ness.
-/

/-- Observable events, in execution order, emitted by the methods of `Server`.
Each constructor corresponds to one effectful statement in `mtail.go`. -/
inductive Event where
  /-- Statement `close(m.closeQuit)` in `Server.Close`. -/
  | closeQuitClosed : Event
  /-- Call `m.t.Close()` in `Server.Close` (tailer shutdown, closing line ingestion). -/
  | tailerClosed : Event
  /-- Statement `close(m.lines)` in `Server.Close` (no tailer: lines channel closed directly). -/
  | linesClosed : Event
  /-- Receive `<-m.l.VMsDone` in `Server.Close`: block until the Loader signals VMsDone. -/
  | waitVMsDone : Event
  /-- Call `m.h.Shutdown(ctx)` in `Server.Close`, with the context timeout in seconds. -/
  | httpShutdown (timeoutSeconds : Nat) : Event
  /-- A message passed to glog (Warning/Info/Error): logged, not propagated. -/
  | logged (msg : String) : Event
  /-- Call `m.t.TailPattern(pattern)` in `Server.StartTailing`. -/
  | tailPattern (pattern : String) : Event
  /-- Call `glog.Exitf` in `Server.Run`: fatal process exit on tailing failure. -/
  | fatalExit (msg : String) : Event
  /-- The `fmt.Printf` plus `m.WriteMetrics(os.Stdout)` pair in `Server.Run`. -/
  | writeMetricsStdout : Event
  /-- Call `m.store.StartGcLoop` in `Server.Run`. -/
  | startMetricGcLoop : Event
  /-- Call `m.t.StartGcLoop` in `Server.Run`. -/
  | startLogGcLoop : Event
  /-- Call `m.Serve()` in `Server.Run`: start the HTTP server. -/
  | serveHTTP : Event
  /-- Call `m.l.LoadAllPrograms()` in `Server.initLoader`: the initial program load. -/
  | loadAllPrograms : Event
  deriving DecidableEq, Repr

/-- Option tokens passed to `vm.NewLoader` by `Server.initLoader`, one per
`vm.X` option value appended to `opts` in the Go code. -/
inductive LoaderOpt where
  | compileOnlyOpt : LoaderOpt
  | errorsAbort : LoaderOpt
  | dumpAstOpt : LoaderOpt
  | dumpAstTypesOpt : LoaderOpt
  | dumpBytecodeOpt : LoaderOpt
  | syslogUseCurrentYearOpt : LoaderOpt
  | omitMetricSourceOpt : LoaderOpt
  | overrideLocationOpt : LoaderOpt
  deriving DecidableEq, Repr

/-- Response written by an HTTP handler: status code, added headers, body. -/
structure HTTPResponse where
  status : Nat
  headers : List (String × String)
  body : String
  deriving DecidableEq, Repr

/-- The `Server` struct of `mtail.go`, restricted to the fields the claims
depend on. `hasTailer`, `hasLoader`, `hasHTTP` model `m.t != nil`,
`m.l != nil`, `m.h != nil`; `closeOnceDone` models whether `m.closeOnce` has
fired; `closeQuitClosed`, `linesClosed`, `webquitClosed` model whether the
corresponding channels have been closed; `loaderOpts` records the option list
passed to `vm.NewLoader`. -/
structure Server where
  hasTailer : Bool
  hasLoader : Bool
  hasHTTP : Bool
  closeOnceDone : Bool
  closeQuitClosed : Bool
  linesClosed : Bool
  webquitClosed : Bool
  oneShot : Bool
  compileOnly : Bool
  dumpAst : Bool
  dumpAstTypes : Bool
  dumpBytecode : Bool
  syslogUseCurrentYear : Bool
  omitMetricSource : Bool
  hasOverrideLocation : Bool
  programPath : String
  logPathPatterns : List String
  loaderOpts : List LoaderOpt
  deriving DecidableEq, Repr

/-- Results of the external calls a `Server` method makes: the error returned
by `m.t.Close()`, by `m.h.Shutdown(ctx)`, by `m.t.TailPattern(p)` per pattern,
the accumulated error list returned by `m.l.LoadAllPrograms()` (none when the
load succeeds), the error of `m.WriteMetrics(os.Stdout)`, and the error of
`m.Serve()`. -/
structure Env where
  tailerCloseErr : Option String
  httpShutdownErr : Option String
  tailPatternErr : String → Option String
  loadAllProgramsErrs : Option String
  writeMetricsErr : Option String
  serveErr : Option String

/-- Trace of an `if err != nil { glog... }` statement: one logged message when
the external call failed, nothing otherwise. -/
def logOf : Option String → List Event
  | none => []
  | some e => [Event.logged e]

/-- The literal `5*time.Second` timeout of the shutdown context built in
`Server.Close` (`context.WithTimeout(context.Background(), 5*time.Second)`). -/
def httpShutdownTimeoutSeconds : Nat := 5

/-- Method `Server.StartTailing` (mtail.go lines 93-102): for each pattern in
`m.logPathPatterns`, call `m.t.TailPattern(pattern)`; a failure is logged with
`glog.Warning` and the loop continues; the function always returns `nil`. -/
def Server.StartTailing (m : Server) (env : Env) : List Event × Option String :=
  ((m.logPathPatterns.map fun p =>
      Event.tailPattern p :: logOf (env.tailPatternErr p)).flatten,
   none)

/-- The option list built by `Server.initLoader` (mtail.go lines 106-130) and
passed to `vm.NewLoader`, in append order: `vm.CompileOnly` (plus
`vm.ErrorsAbort` when also one-shot) when `m.compileOnly`; then `vm.DumpAst`,
`vm.DumpAstTypes`, `vm.DumpBytecode`, `vm.SyslogUseCurrentYear`,
`vm.OmitMetricSource` when the corresponding flag is set; then
`vm.OverrideLocation` when an override location is configured. -/
def Server.initLoaderOpts (m : Server) : List LoaderOpt :=
  (if m.compileOnly then
     LoaderOpt.compileOnlyOpt ::
       (if m.oneShot then [LoaderOpt.errorsAbort] else [])
   else [])
  ++ (if m.dumpAst then [LoaderOpt.dumpAstOpt] else [])
  ++ (if m.dumpAstTypes then [LoaderOpt.dumpAstTypesOpt] else [])
  ++ (if m.dumpBytecode then [LoaderOpt.dumpBytecodeOpt] else [])
  ++ (if m.syslogUseCurrentYear then [LoaderOpt.syslogUseCurrentYearOpt] else [])
  ++ (if m.omitMetricSource then [LoaderOpt.omitMetricSourceOpt] else [])
  ++ (if m.hasOverrideLocation then [LoaderOpt.overrideLocationOpt] else [])

/-- Method `Server.initLoader` (mtail.go lines 105-143). `vm.NewLoader` is
modelled from the spec (its source is not in this repository) as always
constructing a loader: the spec's Loader section describes no construction
failure. After construction, if `m.programPath` is empty the method returns
`nil` without attempting a load; otherwise `m.l.LoadAllPrograms()` runs and a
non-nil error list is wrapped as
`errors.Errorf("Compile encountered errors:\n%s", errs)`. -/
def Server.initLoader (m : Server) (env : Env) : Except String Server × List Event :=
  if m.programPath = "" then
    (Except.ok { m with hasLoader := true, loaderOpts := m.initLoaderOpts }, [])
  else
    match env.loadAllProgramsErrs with
    | some errs =>
        (Except.error ("Compile encountered errors:\n" ++ errs),
         [Event.loadAllPrograms])
    | none =>
        (Except.ok { m with hasLoader := true, loaderOpts := m.initLoaderOpts },
         [Event.loadAllPrograms])

/-- Method `Server.initExporter` (mtail.go lines 146-189). The exporter and
the prometheus registry are out of scope of every claim; the registrations are
modelled from the spec as always succeeding and leaving the claim-relevant
state unchanged. -/
def Server.initExporter (m : Server) : Server := m

/-- Method `Server.initTailer` (mtail.go lines 192-199). `tailer.New` is
modelled from the spec (its source is not in this repository) as always
constructing a tailer from the lines channel and the watcher. -/
def Server.initTailer (m : Server) : Server := { m with hasTailer := true }

/-- The server literal built at the top of `New` (mtail.go lines 244-251):
fresh unclosed channels `lines`, `webquit`, `closeQuit`, a non-nil
`&http.Server{}`, no tailer and no loader yet, and zero values for every
configuration field. -/
def Server.initial : Server :=
  { hasTailer := false
    hasLoader := false
    hasHTTP := true
    closeOnceDone := false
    closeQuitClosed := false
    linesClosed := false
    webquitClosed := false
    oneShot := false
    compileOnly := false
    dumpAst := false
    dumpAstTypes := false
    dumpBytecode := false
    syslogUseCurrentYear := false
    omitMetricSource := false
    hasOverrideLocation := false
    programPath := ""
    logPathPatterns := []
    loaderOpts := [] }

/-- Method `Server.SetOption` (mtail.go lines 268-275): apply the option
functions in order. The option functions themselves live outside this
repository; they are modelled from the spec as configuration setters. -/
def Server.SetOption (m : Server) (options : List (Server → Server)) : Server :=
  options.foldl (fun s o => o s) m

/-- Function `New` (mtail.go lines 243-265): build the initial server, apply
the options, then run `initExporter`, `initLoader`, `initTailer` in order,
propagating the first error; on success return the server. -/
def New (options : List (Server → Server)) (env : Env) : Except String Server :=
  match ((Server.initial.SetOption options).initExporter.initLoader env).1 with
  | Except.error e => Except.error e
  | Except.ok m1 => Except.ok m1.initTailer

/-- Method `Server.handleQuit` (mtail.go lines 325-333): a non-POST request
gets status 405 with an `Allow: POST` header and no state change; a POST
request gets the body `Exiting...` and `close(m.webquit)`. -/
def Server.handleQuit (m : Server) (method : String) : Server × HTTPResponse :=
  if method ≠ "POST" then
    (m, { status := 405, headers := [("Allow", "POST")], body := "" })
  else
    ({ m with webquitClosed := true },
     { status := 200, headers := [], body := "Exiting..." })

/-- Method `Server.Close` (mtail.go lines 353-386). The body runs under
`m.closeOnce.Do`, so it is skipped entirely when the once-guard has already
fired. The body: `close(m.closeQuit)`; then either `m.t.Close()` (error
logged) when a tailer exists or `close(m.lines)` otherwise; then
`<-m.l.VMsDone` when a loader exists; then `m.h.Shutdown(ctx)` under a
5-second timeout context when the HTTP server exists (error logged). The
method always returns `nil`. -/
def Server.Close (m : Server) (env : Env) : Server × List Event × Option String :=
  if m.closeOnceDone then
    (m, ([], none))
  else
    ((if m.hasTailer then
        { m with closeOnceDone := true, closeQuitClosed := true }
      else
        { m with closeOnceDone := true, closeQuitClosed := true, linesClosed := true }),
     (Event.closeQuitClosed ::
        ((if m.hasTailer then
            Event.tailerClosed :: logOf env.tailerCloseErr
          else
            [Event.linesClosed])
         ++ (if m.hasLoader then [Event.waitVMsDone] else [])
         ++ (if m.hasHTTP then
               Event.httpShutdown httpShutdownTimeoutSeconds :: logOf env.httpShutdownErr
             else [])),
      none))

/-- Method `Server.Run` (mtail.go lines 391-416): return `nil` at once when
`compileOnly`; otherwise `StartTailing` (a non-nil error would be
`glog.Exitf`, i.e. fatal); then in one-shot mode `Close` followed by the
metrics dump to stdout, and otherwise the two GC loops followed by `Serve`. -/
def Server.Run (m : Server) (env : Env) : Server × List Event × Option String :=
  if m.compileOnly then
    (m, ([], none))
  else
    match m.StartTailing env with
    | (t1, some msg) => (m, (t1 ++ [Event.fatalExit msg], none))
    | (t1, none) =>
      if m.oneShot then
        match m.Close env with
        | (m1, (t2, some e)) => (m1, (t1 ++ t2, some e))
        | (m1, (t2, none)) =>
            (m1, (t1 ++ t2 ++ [Event.writeMetricsStdout], env.writeMetricsErr))
      else
        (m, (t1 ++ [Event.startMetricGcLoop, Event.startLogGcLoop, Event.serveHTTP],
             env.serveErr))

/-- Predicate selecting the four shutdown steps of `Server.Close` from a
trace, dropping log noise. -/
def isShutdownStep : Event → Bool
  | Event.closeQuitClosed => true
  | Event.tailerClosed => true
  | Event.linesClosed => true
  | Event.waitVMsDone => true
  | Event.httpShutdown _ => true
  | _ => false

/-- Environment in which every external call succeeds. -/
def env0 : Env :=
  { tailerCloseErr := none
    httpShutdownErr := none
    tailPatternErr := fun _ => none
    loadAllProgramsErrs := none
    writeMetricsErr := none
    serveErr := none }

/-- A server as produced by `New`: tailer, loader and HTTP server present. -/
def srvNew : Server := { Server.initial with hasTailer := true, hasLoader := true }

/-- The `srvNew` server in one-shot mode. -/
def srvOneShot : Server := { srvNew with oneShot := true }

/-- The `srvNew` server in compile-only mode. -/
def srvCompileOnly : Server := { srvNew with compileOnly := true }

/-- A server with `dumpAst` set but `compileOnly` unset. -/
def srvDumpNoCompile : Server := { Server.initial with dumpAst := true }

/-- An environment where the initial program load reports errors. -/
def envLoadFail : Env := { env0 with loadAllProgramsErrs := some "prog.mtail:1:1: syntax error" }

-- Helper lemmas shared between claims.

/-- Every event produced by `logOf` is a `logged` event. -/
theorem mem_logOf {e : Event} {o : Option String} (h : e ∈ logOf o) :
    ∃ s, e = Event.logged s := by
  cases o with
  | none => simp [logOf] at h
  | some s => simp [logOf] at h; exact ⟨s, h⟩

/-- Every event in a `StartTailing` trace is a `tailPattern` or a `logged`. -/
theorem mem_startTailing_trace {m : Server} {env : Env} {e : Event}
    (h : e ∈ (m.StartTailing env).1) :
    (∃ p, e = Event.tailPattern p) ∨ (∃ s, e = Event.logged s) := by
  simp only [Server.StartTailing, List.mem_flatten, List.mem_map] at h
  obtain ⟨l, ⟨p, _, hl⟩, hel⟩ := h
  subst hl
  rcases List.mem_cons.mp hel with h1 | h2
  · exact Or.inl ⟨p, h1⟩
  · exact Or.inr (mem_logOf h2)

/-- Every event in a `Close` trace is one of the four shutdown steps or a
`logged` event. -/
theorem mem_close_trace {m : Server} {env : Env} {e : Event}
    (h : e ∈ (m.Close env).2.1) :
    e = Event.closeQuitClosed ∨ e = Event.tailerClosed ∨ e = Event.linesClosed ∨
    e = Event.waitVMsDone ∨ (∃ t, e = Event.httpShutdown t) ∨
    (∃ s, e = Event.logged s) := by
  by_cases hc : m.closeOnceDone
  · simp [Server.Close, hc] at h
  · simp only [Server.Close, hc, if_false, Bool.false_eq_true, if_neg] at h
    rcases List.mem_cons.mp h with h0 | h1
    · exact Or.inl h0
    · rcases List.mem_append.mp h1 with h2 | h3
      · rcases List.mem_append.mp h2 with h4 | h5
        · by_cases ht : m.hasTailer
          · simp only [ht, if_true] at h4
            rcases List.mem_cons.mp h4 with h6 | h7
            · exact Or.inr (Or.inl h6)
            · exact Or.inr (Or.inr (Or.inr (Or.inr (Or.inr (mem_logOf h7)))))
          · simp only [ht, if_false] at h4
            simp at h4
            exact Or.inr (Or.inr (Or.inl h4))
        · by_cases hl : m.hasLoader
          · simp only [hl, if_true] at h5
            simp at h5
            exact Or.inr (Or.inr (Or.inr (Or.inl h5)))
          · simp [hl] at h5
      · by_cases hh : m.hasHTTP
        · simp only [hh, if_true] at h3
          rcases List.mem_cons.mp h3 with h6 | h7
          · exact Or.inr (Or.inr (Or.inr (Or.inr (Or.inl ⟨_, h6⟩))))
          · exact Or.inr (Or.inr (Or.inr (Or.inr (Or.inr (mem_logOf h7)))))
        · simp [hh] at h3

/-- A `Close` call after the once-guard has fired is a no-op: same state,
empty trace, `nil` result. -/
theorem Close_done_noop (m : Server) (env : Env) (h : m.closeOnceDone = true) :
    m.Close env = (m, ([], none)) := by
  simp [Server.Close, h]

/-- Helper: the Go return value of `Close` is `nil` in every state. -/
theorem Close_result_none (m : Server) (env : Env) : (m.Close env).2.2 = none := by
  by_cases hc : m.closeOnceDone <;>
    by_cases ht : m.hasTailer <;>
      simp [Server.Close, hc, ht]

/-- Helper: a fatal-exit event never occurs in a `StartTailing` trace. -/
theorem fatalExit_not_mem_startTailing (m : Server) (env : Env) (msg : String) :
    Event.fatalExit msg ∉ (m.StartTailing env).1 := by
  intro h
  rcases mem_startTailing_trace h with ⟨p, hp⟩ | ⟨s, hs⟩ <;> simp_all

/-- Helper: a fatal-exit event never occurs in a `Close` trace. -/
theorem fatalExit_not_mem_Close (m : Server) (env : Env) (msg : String) :
    Event.fatalExit msg ∉ (m.Close env).2.1 := by
  intro h
  rcases mem_close_trace h with h1 | h1 | h1 | h1 | ⟨t, h1⟩ | ⟨s, h1⟩ <;> simp_all

/-- Helper: the trace of `Run` outside compile-only mode is the tailing trace
followed by the close-and-dump trace (one-shot) or by the GC and serve events
(continuous). -/
theorem Run_trace_eq (m : Server) (env : Env) (hco : m.compileOnly = false) :
    (m.Run env).2.1 =
      if m.oneShot then
        (m.StartTailing env).1 ++ (m.Close env).2.1 ++ [Event.writeMetricsStdout]
      else
        (m.StartTailing env).1
          ++ [Event.startMetricGcLoop, Event.startLogGcLoop, Event.serveHTTP] := by
  have hst : m.StartTailing env = ((m.StartTailing env).1, none) := rfl
  have hcl : m.Close env = ((m.Close env).1, ((m.Close env).2.1, none)) := by
    rw [← Close_result_none m env]
  simp only [Server.Run, hco, Bool.false_eq_true, if_false]
  rw [hst]
  by_cases hos : m.oneShot
  · simp only [hos, if_true]
    rw [hcl]
  · simp [hos]

-- Claim theorems.

/-- C1: whenever `Server.Close` performs shutdown (the once-guard has not yet
fired) on a server with a loader and an HTTP server, the shutdown steps in its
trace, in order, are: the closeQuit channel is closed; then line ingestion is
closed (the tailer's Close when a tailer exists, otherwise the lines channel
directly); then Close waits for the Loader's VMsDone; and only after that is
the HTTP server shut down. -/
theorem Close_shutdown_order (m : Server) (env : Env)
    (h0 : m.closeOnceDone = false) (hl : m.hasLoader = true)
    (hh : m.hasHTTP = true) :
    (m.Close env).2.1.filter isShutdownStep =
      Event.closeQuitClosed ::
        ((if m.hasTailer then [Event.tailerClosed] else [Event.linesClosed])
         ++ [Event.waitVMsDone, Event.httpShutdown 5]) := by
  by_cases ht : m.hasTailer <;>
    cases henv : env.tailerCloseErr <;>
    cases henv2 : env.httpShutdownErr <;>
      simp [Server.Close, h0, hl, hh, ht, henv, henv2, logOf, isShutdownStep,
        httpShutdownTimeoutSeconds]

/-- C1 witness: on a concrete fresh server with tailer, loader and HTTP
server, the filtered shutdown trace is exactly the claimed sequence. -/
theorem Close_shutdown_order_witness :
    (srvNew.Close env0).2.1.filter isShutdownStep =
      Event.closeQuitClosed ::
        ((if srvNew.hasTailer then [Event.tailerClosed] else [Event.linesClosed])
         ++ [Event.waitVMsDone, Event.httpShutdown 5]) :=
  Close_shutdown_order srvNew env0 rfl rfl rfl

/-- C2: with `oneShot` and not `compileOnly`, on a fresh server with loader
and HTTP server, `Run` produces the tailing trace, then the full `Close`
shutdown trace (which contains the wait for VMsDone), and only after that the
metrics dump to stdout; the trace contains neither the HTTP serve event nor
either GC loop start. -/
theorem Run_oneShot (m : Server) (env : Env)
    (h1 : m.oneShot = true) (h2 : m.compileOnly = false)
    (h3 : m.closeOnceDone = false) (hl : m.hasLoader = true) :
    (m.Run env).2.1 =
        (m.StartTailing env).1 ++ (m.Close env).2.1 ++ [Event.writeMetricsStdout]
    ∧ Event.waitVMsDone ∈ (m.Close env).2.1
    ∧ Event.serveHTTP ∉ (m.Run env).2.1
    ∧ Event.startMetricGcLoop ∉ (m.Run env).2.1
    ∧ Event.startLogGcLoop ∉ (m.Run env).2.1 := by
  have htrace : (m.Run env).2.1 =
      (m.StartTailing env).1 ++ (m.Close env).2.1 ++ [Event.writeMetricsStdout] := by
    rw [Run_trace_eq m env h2, if_pos h1]
  have hwait : Event.waitVMsDone ∈ (m.Close env).2.1 := by
    simp [Server.Close, h3, hl]
  refine ⟨htrace, hwait, ?_, ?_, ?_⟩ <;>
  · rw [htrace]
    intro hmem
    rcases List.mem_append.mp hmem with hmem2 | hmem3
    · rcases List.mem_append.mp hmem2 with hst | hcl
      · rcases mem_startTailing_trace hst with ⟨p, hp⟩ | ⟨s, hs⟩ <;> simp_all
      · rcases mem_close_trace hcl with h | h | h | h | ⟨t, h⟩ | ⟨s, h⟩ <;> simp_all
    · simp at hmem3

/-- C2 witness: the concrete one-shot server realises all hypotheses. -/
theorem Run_oneShot_witness :
    (srvOneShot.Run env0).2.1 =
        (srvOneShot.StartTailing env0).1 ++ (srvOneShot.Close env0).2.1
          ++ [Event.writeMetricsStdout]
    ∧ Event.waitVMsDone ∈ (srvOneShot.Close env0).2.1
    ∧ Event.serveHTTP ∉ (srvOneShot.Run env0).2.1
    ∧ Event.startMetricGcLoop ∉ (srvOneShot.Run env0).2.1
    ∧ Event.startLogGcLoop ∉ (srvOneShot.Run env0).2.1 :=
  Run_oneShot srvOneShot env0 rfl rfl rfl rfl

/-- C3: `Server.Close` is idempotent. A first call on a not-yet-closed server
executes the shutdown sequence (its trace contains shutdown steps), and any
subsequent call, with any environment, returns `nil` immediately with an empty
trace and an unchanged server state; hence the shutdown sequence runs exactly
once over any number of calls. -/
theorem Close_idempotent (m : Server) (env1 env2 : Env)
    (h : m.closeOnceDone = false) :
    (m.Close env1).2.1.filter isShutdownStep ≠ []
    ∧ (m.Close env1).1.Close env2 = ((m.Close env1).1, ([], none)) := by
  constructor
  · by_cases ht : m.hasTailer <;>
      cases henv : env1.tailerCloseErr <;>
        simp [Server.Close, h, ht, henv, logOf, isShutdownStep]
  · apply Close_done_noop
    by_cases ht : m.hasTailer <;> simp [Server.Close, h, ht]

/-- C3 witness: a concrete first close performs shutdown and a second close is
a no-op. -/
theorem Close_idempotent_witness :
    (srvNew.Close env0).2.1.filter isShutdownStep ≠ []
    ∧ (srvNew.Close env0).1.Close env0 = ((srvNew.Close env0).1, ([], none)) :=
  Close_idempotent srvNew env0 env0 rfl

/-- C4: when the program path is non-empty and the initial
`LoadAllPrograms` reports errors, `initLoader` fails with exactly the error
`Compile encountered errors:` followed by the accumulated diagnostics, and
`New` returns that error and no server; when the program path is empty, no
load is attempted (empty `initLoader` trace) and `initLoader` succeeds. -/
theorem initLoader_initial_load (options : List (Server → Server)) (m2 : Server)
    (env : Env) (errs : String)
    (h1 : (Server.initial.SetOption options).programPath ≠ "")
    (h2 : env.loadAllProgramsErrs = some errs)
    (h3 : m2.programPath = "") :
    ((Server.initial.SetOption options).initLoader env).1 =
        Except.error ("Compile encountered errors:\n" ++ errs)
    ∧ New options env = Except.error ("Compile encountered errors:\n" ++ errs)
    ∧ (m2.initLoader env).2 = []
    ∧ ∃ m', (m2.initLoader env).1 = Except.ok m' := by
  have hload : ((Server.initial.SetOption options).initLoader env).1 =
      Except.error ("Compile encountered errors:\n" ++ errs) := by
    simp [Server.initLoader, h1, h2]
  refine ⟨hload, ?_, ?_, ?_⟩
  · simp only [New, Server.initExporter]
    rw [hload]
  · simp [Server.initLoader, h3]
  · exact ⟨{ m2 with hasLoader := true, loaderOpts := m2.initLoaderOpts },
      by simp [Server.initLoader, h3]⟩

/-- C4 witness: with a concrete option setting a program path and an
environment whose load reports a diagnostic, `initLoader` and `New` fail with
the wrapped diagnostics, while a server with an empty program path skips the
load and succeeds. -/
theorem initLoader_initial_load_witness :
    ((Server.initial.SetOption
        [fun s => { s with programPath := "progs" }]).initLoader envLoadFail).1 =
        Except.error ("Compile encountered errors:\n" ++ "prog.mtail:1:1: syntax error")
    ∧ New [fun s => { s with programPath := "progs" }] envLoadFail =
        Except.error ("Compile encountered errors:\n" ++ "prog.mtail:1:1: syntax error")
    ∧ (Server.initial.initLoader envLoadFail).2 = []
    ∧ ∃ m', (Server.initial.initLoader envLoadFail).1 = Except.ok m' :=
  initLoader_initial_load [fun s => { s with programPath := "progs" }]
    Server.initial envLoadFail "prog.mtail:1:1: syntax error"
    (by decide) rfl rfl

/-- C5: with `compileOnly` set, `Run` returns `nil` immediately: the state is
unchanged and the trace is empty, so no tailing starts, no GC loop starts, no
close runs and the HTTP server is not started. -/
theorem Run_compileOnly (m : Server) (env : Env) (h : m.compileOnly = true) :
    m.Run env = (m, ([], none)) := by
  simp [Server.Run, h]

/-- C5 witness: the concrete compile-only server realises the hypothesis. -/
theorem Run_compileOnly_witness :
    srvCompileOnly.Run env0 = (srvCompileOnly, ([], none)) :=
  Run_compileOnly srvCompileOnly env0 rfl

/-- C6 counterexample: a server with `dumpAst` set and `compileOnly` unset
still passes the `DumpAst` option to the loader, so the dump options are not
restricted to the compile-only path. -/
theorem dump_opts_not_compileOnly_only :
    srvDumpNoCompile.compileOnly = false
    ∧ LoaderOpt.dumpAstOpt ∈ srvDumpNoCompile.initLoaderOpts := by
  decide

/-- C6 amended: each dump option (`DumpAst`, `DumpAstTypes`, `DumpBytecode`)
is passed to the Loader exactly when the corresponding flag is set,
independently of `compileOnly`; only `CompileOnly` itself and `ErrorsAbort`
are confined to the compile-only path. -/
theorem dump_opts_follow_flags (m : Server) :
    (LoaderOpt.dumpAstOpt ∈ m.initLoaderOpts ↔ m.dumpAst = true)
    ∧ (LoaderOpt.dumpAstTypesOpt ∈ m.initLoaderOpts ↔ m.dumpAstTypes = true)
    ∧ (LoaderOpt.dumpBytecodeOpt ∈ m.initLoaderOpts ↔ m.dumpBytecode = true)
    ∧ (LoaderOpt.compileOnlyOpt ∈ m.initLoaderOpts ↔ m.compileOnly = true)
    ∧ (LoaderOpt.errorsAbort ∈ m.initLoaderOpts ↔
        (m.compileOnly = true ∧ m.oneShot = true)) := by
  obtain ⟨t, l, h, cd, cq, lc, wq, os, co, da, dat, db, sy, oms, ol, pp, lpp, lo⟩ := m
  cases co <;> cases os <;> cases da <;> cases dat <;> cases db <;>
    cases sy <;> cases oms <;> cases ol <;>
      simp [Server.initLoaderOpts]

/-- C7: whenever `Close` performs shutdown on a server with an HTTP server,
the HTTP shutdown event occurs with a context timeout of exactly 5 seconds,
no HTTP shutdown with any other timeout occurs, a shutdown error is logged,
and `Close` still returns `nil`. -/
theorem Close_http_shutdown_timeout (m : Server) (env : Env)
    (h0 : m.closeOnceDone = false) (hh : m.hasHTTP = true) :
    Event.httpShutdown httpShutdownTimeoutSeconds ∈ (m.Close env).2.1
    ∧ httpShutdownTimeoutSeconds = 5
    ∧ (∀ t, Event.httpShutdown t ∈ (m.Close env).2.1 → t = 5)
    ∧ (∀ e, env.httpShutdownErr = some e → Event.logged e ∈ (m.Close env).2.1)
    ∧ (m.Close env).2.2 = none := by
  refine ⟨?_, rfl, ?_, ?_, ?_⟩
  · simp [Server.Close, h0, hh]
  · intro t htm
    by_cases ht : m.hasTailer <;>
      by_cases hl : m.hasLoader <;>
        cases henv : env.tailerCloseErr <;>
          cases henv2 : env.httpShutdownErr <;>
            simp_all [Server.Close, logOf, httpShutdownTimeoutSeconds]
  · intro e he
    simp [Server.Close, h0, hh, he, logOf]
  · exact Close_result_none m env

/-- C7 witness: the concrete fresh server realises both hypotheses. -/
theorem Close_http_shutdown_timeout_witness :
    Event.httpShutdown httpShutdownTimeoutSeconds ∈ (srvNew.Close env0).2.1
    ∧ httpShutdownTimeoutSeconds = 5
    ∧ (∀ t, Event.httpShutdown t ∈ (srvNew.Close env0).2.1 → t = 5)
    ∧ (∀ e, env0.httpShutdownErr = some e → Event.logged e ∈ (srvNew.Close env0).2.1)
    ∧ (srvNew.Close env0).2.2 = none :=
  Close_http_shutdown_timeout srvNew env0 rfl rfl

/-- C8: `Server.Close` returns `nil` on every invocation, in every server
state and every environment, including environments where the tailer's Close
or the HTTP shutdown fails. -/
theorem Close_returns_nil (m : Server) (env : Env) :
    (m.Close env).2.2 = none :=
  Close_result_none m env

/-- C9: `Server.StartTailing` returns `nil` for every pattern list and every
environment; every configured pattern is still attempted (a failing pattern is
only logged); consequently the `glog.Exitf` fatal-exit branch of `Run` never
fires. -/
theorem StartTailing_never_fails (m : Server) (env : Env) :
    (m.StartTailing env).2 = none
    ∧ (∀ p, p ∈ m.logPathPatterns → Event.tailPattern p ∈ (m.StartTailing env).1)
    ∧ (∀ msg, Event.fatalExit msg ∉ (m.Run env).2.1) := by
  refine ⟨rfl, ?_, ?_⟩
  · intro p hp
    simp only [Server.StartTailing, List.mem_flatten, List.mem_map]
    exact ⟨_, ⟨p, hp, rfl⟩, List.mem_cons_self _ _⟩
  · intro msg hmem
    cases hco : m.compileOnly with
    | true => simp [Server.Run, hco] at hmem
    | false =>
      rw [Run_trace_eq m env hco] at hmem
      cases hos : m.oneShot with
      | true =>
        rw [if_pos hos] at hmem
        rcases List.mem_append.mp hmem with h1 | h2
        · rcases List.mem_append.mp h1 with h3 | h4
          · exact fatalExit_not_mem_startTailing m env msg h3
          · exact fatalExit_not_mem_Close m env msg h4
        · simp at h2
      | false =>
        rw [if_neg (by simp [hos])] at hmem
        rcases List.mem_append.mp hmem with h1 | h2
        · exact fatalExit_not_mem_startTailing m env msg h1
        · simp at h2

/-- C10: the quit endpoint closes the webquit channel only on POST: any other
method gets status 405 with an `Allow: POST` header and an unchanged server,
while a POST request closes webquit and answers `Exiting...`. -/
theorem handleQuit_post_only (m : Server) (method : String)
    (h : method ≠ "POST") :
    m.handleQuit method =
        (m, { status := 405, headers := [("Allow", "POST")], body := "" })
    ∧ (m.handleQuit "POST").1 = { m with webquitClosed := true }
    ∧ (m.handleQuit "POST").2.body = "Exiting..." := by
  refine ⟨?_, ?_, ?_⟩
  · simp [Server.handleQuit, h]
  · simp [Server.handleQuit]
  · simp [Server.handleQuit]

/-- C10 witness: a GET request on the concrete fresh server is rejected with
405 and leaves the server unchanged, while POST closes webquit. -/
theorem handleQuit_post_only_witness :
    srvNew.handleQuit "GET" =
        (srvNew, { status := 405, headers := [("Allow", "POST")], body := "" })
    ∧ (srvNew.handleQuit "POST").1 = { srvNew with webquitClosed := true }
    ∧ (srvNew.handleQuit "POST").2.body = "Exiting..." :=
  handleQuit_post_only srvNew "GET" (by decide)
